import Mathlib

/-
Verification of the APEX-performance sync scripts.

Shallow embedding of:
  - scripts/sync-garmin-mcp.py            (extract_duration, sync_activities_by_date_range, __main__)
  - scripts/sync-garmin-wellness-mcp.py   (sync_wellness_by_date_range, __main__)
  - garmin_connect_mcp/tools/raw_data.py  (record-field extraction of get_activity_fit_stream)

JSON-like Python values are modelled by the inductive type JsonVal; Python
None is JsonVal.null, dicts are ordered association lists.  Numbers are
modelled by Rat (the scripts only compare, truncate and pass numbers
through, so exact rationals embed the float arithmetic that the claims
touch).  Python booleans are outside the modelled payload universe: the
upstream JSON fields handled here carry numbers, strings, objects, arrays
and null.  External calls (Garmin client methods) are oracle parameters;
a call that raises is an oracle returning Except.error.
-/

inductive JsonVal where
  | null : JsonVal
  | num (q : Rat) : JsonVal
  | str (s : String) : JsonVal
  | arr (elems : List JsonVal) : JsonVal
  | obj (fields : List (String × JsonVal)) : JsonVal

/-- Python exceptions that the modelled code can raise itself (attribute
access such as `.get` on a value that is not a dict). -/
inductive PyExn where
  | attrErr : PyExn
deriving DecidableEq

instance {ε α : Type} [DecidableEq ε] [DecidableEq α] : DecidableEq (Except ε α) := fun a b =>
  match a, b with
  | .ok x, .ok y => if h : x = y then .isTrue (by rw [h]) else .isFalse (by simp [h])
  | .error x, .error y => if h : x = y then .isTrue (by rw [h]) else .isFalse (by simp [h])
  | .ok _, .error _ => .isFalse (by simp)
  | .error _, .ok _ => .isFalse (by simp)

/-- Python truthiness of a JSON-like value: None, 0, empty string, empty
list and empty dict are falsy. -/
def pyTruthy : JsonVal → Bool
  | .null => false
  | .num q => q != 0
  | .str s => !s.isEmpty
  | .arr l => !l.isEmpty
  | .obj l => !l.isEmpty

/-- Python `d.get(k)`: the value stored at the key, or None when absent. -/
def pyGet (fields : List (String × JsonVal)) (k : String) : JsonVal :=
  (fields.lookup k).getD .null

/-- Python `a or b`: the first operand when it is truthy, otherwise the
second operand (which is returned even when falsy). -/
def pyOr (a b : JsonVal) : JsonVal :=
  if pyTruthy a then a else b

/-- Python `int()` applied to a number: truncation toward zero. -/
def pyInt (q : Rat) : Int :=
  q.num.tdiv q.den

/-- Python `float()` applied to a JSON-like value: a number converts to
itself, anything else raises (TypeError/ValueError).  Python's float()
also parses numeric strings; the upstream fields handled here carry JSON
numbers, so string parsing is not modelled. -/
def pyFloat : JsonVal → Except Unit Rat
  | .num q => .ok q
  | _ => .error ()

/-
extract_duration (sync-garmin-mcp.py lines 45-118).

durFromField mirrors the repeated pattern for the two duration fields
that may hold either a number or an object:
    if isinstance(x, dict):
        ts = x.get('totalSeconds')
        if ts and isinstance(ts, (int, float)) and ts > 0: return (int(ts), dictSrc)
    elif isinstance(x, (int, float)) and x > 0: return (int(x), scalarSrc)
durScalar mirrors the scalar-only pattern:
    if x is not None and isinstance(x, (int, float)) and x > 0: return (int(x), src)
-/

def durFromField (v : JsonVal) (scalarSrc dictSrc : String) : Option (Int × String) :=
  match v with
  | .obj f =>
    let ts := pyGet f "totalSeconds"
    if pyTruthy ts then
      match ts with
      | .num q => if 0 < q then some (pyInt q, dictSrc) else none
      | _ => none
    else none
  | .num q => if 0 < q then some (pyInt q, scalarSrc) else none
  | _ => none

def durScalar (v : JsonVal) (src : String) : Option (Int × String) :=
  match v with
  | .num q => if 0 < q then some (pyInt q, src) else none
  | _ => none

/-- Priorities 1-3 of extract_duration: duration (number or object),
elapsedDuration, elapsedDurationInSeconds, on the list-level activity. -/
def durPriority123 (af : List (String × JsonVal)) : Option (Int × String) :=
  match durFromField (pyGet af "duration") "duration" "duration.totalSeconds" with
  | some r => some r
  | none =>
  match durScalar (pyGet af "elapsedDuration") "elapsedDuration" with
  | some r => some r
  | none => durScalar (pyGet af "elapsedDurationInSeconds") "elapsedDurationInSeconds"

/-- Priority 4 of extract_duration: the cascade over the details object,
ending with the nested summaryDTO. -/
def durDetails (df : List (String × JsonVal)) : Option (Int × String) :=
  match durFromField (pyGet df "duration") "details.duration" "details.duration.totalSeconds" with
  | some r => some r
  | none =>
  match durScalar (pyGet df "elapsedDuration") "details.elapsedDuration" with
  | some r => some r
  | none =>
  match durScalar (pyGet df "elapsedDurationInSeconds") "details.elapsedDurationInSeconds" with
  | some r => some r
  | none =>
    match pyGet df "summaryDTO" with
    | .obj sf =>
      if pyTruthy (.obj sf) then
        match durScalar (pyGet sf "elapsedDuration") "details.summaryDTO.elapsedDuration" with
        | some r => some r
        | none => durScalar (pyGet sf "duration") "details.summaryDTO.duration"
      else none
    | _ => none

/-- extract_duration(activity, details).  A non-dict activity raises
AttributeError at activity.get; a truthy non-dict details raises at
details.get (a falsy details is skipped by `if details:`). -/
def extract_duration (activity details : JsonVal) : Except PyExn (Int × String) :=
  match activity with
  | .obj af =>
    match durPriority123 af with
    | some r => .ok r
    | none =>
      if pyTruthy details then
        match details with
        | .obj df => .ok ((durDetails df).getD (0, "none"))
        | _ => .error .attrErr
      else .ok (0, "none")
  | _ => .error .attrErr

/-- The rational one half, built by its constructor so that closed
evaluation reduces without the field-division instances. -/
def ratHalf : Rat := ⟨1, 2, by decide, Nat.coprime_one_left 2⟩

/-
Batch-level error classification shared by both sync scripts: the outer
try/except clauses map the wrapper's exception classes to a structured
(kind, message) pair (sync-garmin-mcp.py lines 234-257 and
sync-garmin-wellness-mcp.py lines 256-279).
-/

/-- An exception escaping to the batch-level handlers: a rate-limit
rejection, an authentication rejection, a classified API fault, or any
other (unclassified) exception carrying its rendered message. -/
inductive GExn where
  | rateLimited : GExn
  | authFailed : GExn
  | apiError (msg : String) : GExn
  | unknown (msg : String) : GExn
deriving DecidableEq

def classify : GExn → String × String
  | .rateLimited => ("RATE_LIMITED", "Rate limit exceeded. Please wait a few minutes before trying again.")
  | .authFailed => ("AUTH_FAILED", "Authentication failed. Please run garmin-connect-mcp-auth to re-authenticate.")
  | .apiError m => ("API_ERROR", m)
  | .unknown m => ("UNKNOWN_ERROR", "Unexpected error: " ++ m)

/-- The message of the early AUTH_FAILED return taken when
init_garmin_client returns a falsy client. -/
def authFailedMsg : String :=
  "Failed to initialize Garmin client. Check credentials or run garmin-connect-mcp-auth."

/-
sync_activities_by_date_range (sync-garmin-mcp.py lines 121-257).
External calls are oracles: init covers config loading plus
init_garmin_client (Except.error g when an exception escapes there,
.ok none when the client is falsy, .ok (some ()) on success);
getActivities is the single get_activities_by_date call; det is the
per-activity get_activity call, whose failures are caught locally.
-/

structure ActivityRecord where
  activityId : JsonVal
  activityName : JsonVal
  activityType : JsonVal
  startTimeGMT : JsonVal
  startTimeLocal : JsonVal
  durationInSeconds : Int
  details : JsonVal

/-- Lines 190-197: the wrapped get_activity call; a raise is caught and
details stays None. -/
def detailValue (det : JsonVal → Except Unit JsonVal) (aid : JsonVal) : JsonVal :=
  match det aid with
  | .ok v => v
  | .error _ => .null

/-- Line 182: activity_type_obj.get('typeKey', 'running') when the
activityType value is a dict, 'running' otherwise. -/
def activityTypeKey (atv : JsonVal) : JsonVal :=
  match atv with
  | .obj tf => (tf.lookup "typeKey").getD (.str "running")
  | _ => .str "running"

/-- Lines 215-223: the record appended for one surviving activity. -/
def mkActivityRecord (fields : List (String × JsonVal)) (dtl : JsonVal)
    (dur : Int) : ActivityRecord :=
  { activityId := pyGet fields "activityId",
    activityName := (fields.lookup "activityName").getD (.str ""),
    activityType := activityTypeKey ((fields.lookup "activityType").getD (.obj [])),
    startTimeGMT := pyGet fields "startTimeGMT",
    startTimeLocal := pyGet fields "startTimeLocal",
    durationInSeconds := dur,
    details := dtl }

/-- The body of the per-activity loop (lines 173-226).  Returns none when
the item is skipped: a falsy/missing activityId hits `continue`, and a
non-dict item (or an AttributeError escaping extract_duration) is caught
by the per-item handler at line 224 and skipped. -/
def processActivity (det : JsonVal → Except Unit JsonVal) (a : JsonVal) : Option ActivityRecord :=
  match a with
  | .obj fields =>
    if pyTruthy (pyGet fields "activityId") then
      match extract_duration (.obj fields)
          (detailValue det (pyGet fields "activityId")) with
      | .ok (dur, _src) =>
        some (mkActivityRecord fields (detailValue det (pyGet fields "activityId")) dur)
      | .error _ => none
    else none
  | _ => none

structure ActBatchResult where
  success : Bool
  activities : Option (List ActivityRecord)
  count : Option Nat
  error : Option (String × String)

def sync_activities_by_date_range (init : Except GExn (Option Unit))
    (getActivities : Except GExn (List JsonVal))
    (det : JsonVal → Except Unit JsonVal) : ActBatchResult :=
  match init with
  | .error g => { success := false, activities := none, count := none, error := some (classify g) }
  | .ok none => { success := false, activities := none, count := none,
                  error := some ("AUTH_FAILED", authFailedMsg) }
  | .ok (some _) =>
    match getActivities with
    | .error g => { success := false, activities := none, count := none, error := some (classify g) }
    | .ok acts =>
      let formatted := acts.filterMap (processActivity det)
      { success := true, activities := some formatted, count := some formatted.length, error := none }

/-
sync_wellness_by_date_range (sync-garmin-wellness-mcp.py lines 46-279).
Dates are embedded as day ordinals: datetime values at midnight under
timedelta(days=1) steps and <= comparison are isomorphic to Nat, and
strftime of distinct days yields distinct strings, so the YYYY-MM-DD
strings are represented by their ordinals.
-/

/-- The date-generation loop (lines 89-93):
current = start; while current <= end: append current; current += 1 day. -/
def dateRange (s e : Nat) : List Nat :=
  if s ≤ e then s :: dateRange (s + 1) e else []
termination_by e + 1 - s
decreasing_by omega

/-- The HRV extraction for one day (lines 110-152).  The fetch result is
an oracle value; Except.error models a raise caught by the hrv handler.
Note the isinstance(hrv_data, (int, float)) branch at lines 139-140 is
inside the isinstance(hrv_data, dict) branch and hence unreachable. -/
def hrvSection (fetch : Except Unit JsonVal) : Option Rat :=
  match fetch with
  | .error _ => none
  | .ok hrv_data =>
    if pyTruthy hrv_data then
      match hrv_data with
      | .obj f =>
        let hrv_summary := pyOr (pyGet f "hrvSummary") (pyGet f "hrvSummaryDTO")
        let h1 : JsonVal :=
          if pyTruthy hrv_summary then
            match hrv_summary with
            | .obj sf => pyOr (pyGet sf "lastNightAvg") (pyGet sf "avgOvernightHrv")
            | _ => .null
          else .null
        let h2 : JsonVal :=
          match h1 with
          | .null =>
            pyOr (pyOr (pyOr (pyGet f "lastNightAvg") (pyGet f "avgOvernightHrv"))
              (pyGet f "averageHrv")) (pyGet f "overnightAvg")
          | v => v
        let h3 : JsonVal :=
          match h2 with
          | .null =>
            (match pyGet f "hrv" with
             | .obj hf => pyOr (pyGet hf "lastNightAvg") (pyGet hf "avgOvernightHrv")
             | _ => .null)
          | v => v
        match h3 with
        | .null => none
        | v =>
          match pyFloat v with
          | .ok q => some q
          | .error _ => none
      | _ => none
    else none

/-- RHR Method 1: get_rhr_day (lines 159-173).  When float() raises after
the or-chain assigned a non-numeric value, the exception is caught and
the rhr variable keeps that raw value. -/
def rhrMethod1 (fetch : Except Unit JsonVal) : JsonVal :=
  match fetch with
  | .error _ => .null
  | .ok rhr_data =>
    match rhr_data with
    | .num q => .num q
    | .obj f =>
      let r := pyOr (pyOr (pyGet f "restingHeartRate") (pyGet f "rhr")) (pyGet f "value")
      match r with
      | .null => .null
      | v =>
        match pyFloat v with
        | .ok q => .num q
        | .error _ => v
    | _ => .null

/-- RHR Method 2: get_heart_rates (lines 176-186), tried only when rhr is
still None. -/
def rhrMethod2 (fetch : Except Unit JsonVal) : JsonVal :=
  match fetch with
  | .error _ => .null
  | .ok hr_data =>
    if pyTruthy hr_data then
      match hr_data with
      | .obj f =>
        let r := pyOr (pyOr (pyGet f "restingHeartRate") (pyGet f "rhr")) (pyGet f "resting_hr")
        match r with
        | .null => .null
        | v =>
          match pyFloat v with
          | .ok q => .num q
          | .error _ => v
      | _ => .null
    else .null

/-- The tail of the sleep section (lines 208-213): take RHR from the
sleep payload when still None.  A float() raise there is caught by the
sleep handler, which resets both sleep fields to None. -/
def sleepRhrUpdate (f : List (String × JsonVal)) (rhr0 ss sc : JsonVal) :
    JsonVal × JsonVal × JsonVal :=
  match rhr0 with
  | .null =>
    match pyGet f "restingHeartRate" with
    | .null => (ss, sc, .null)
    | v =>
      match pyFloat v with
      | .ok q => (ss, sc, .num q)
      | .error _ => (.null, .null, .null)
  | v => (ss, sc, v)

/-- The sleep section (lines 199-220), returning
(sleepSeconds, sleepScore, rhr).  Any exception inside the block is
caught at line 217, which sets both sleep fields to None and leaves rhr
at its prior value. -/
def sleepSection (fetch : Except Unit JsonVal) (rhr0 : JsonVal) :
    JsonVal × JsonVal × JsonVal :=
  match fetch with
  | .error _ => (.null, .null, rhr0)
  | .ok sleep_data =>
    if pyTruthy sleep_data then
      match sleep_data with
      | .obj f =>
        match (f.lookup "dailySleepDTO").getD (.obj []) with
        | .obj df =>
          let ss := pyGet df "sleepTimeSeconds"
          match pyGet df "sleepScores" with
          | .obj svf =>
            match (svf.lookup "overall").getD (.obj []) with
            | .obj ovf => sleepRhrUpdate f rhr0 ss (pyGet ovf "value")
            | _ => (.null, .null, rhr0)
          | _ => sleepRhrUpdate f rhr0 ss .null
        | _ => (.null, .null, rhr0)
      | _ => (.null, .null, rhr0)
    else (.null, .null, rhr0)

structure WellnessDayEntry where
  date : Nat
  hrv : Option Rat
  rhr : JsonVal
  sleepSeconds : JsonVal
  sleepScore : JsonVal

/-- The four paced external calls made for one day, as oracles indexed by
the day; Except.error models a call that raises. -/
structure WOracle where
  hrv : Nat → Except Unit JsonVal
  rhrDay : Nat → Except Unit JsonVal
  heartRates : Nat → Except Unit JsonVal
  sleep : Nat → Except Unit JsonVal

/-- The body of the per-date loop (lines 100-239) assembling one
WellnessDayEntry.  Every fetch is individually wrapped, so the entry is
always produced; the catch-all at line 227 that would append an all-None
entry is unreachable once the three field handlers are in place. -/
def buildEntry (orc : WOracle) (d : Nat) : WellnessDayEntry :=
  let ehrv := hrvSection (orc.hrv d)
  let rhr1 := rhrMethod1 (orc.rhrDay d)
  let rhr2 :=
    match rhr1 with
    | .null => rhrMethod2 (orc.heartRates d)
    | v => v
  let s3 := sleepSection (orc.sleep d) rhr2
  { date := d, hrv := ehrv, rhr := s3.2.2, sleepSeconds := s3.1, sleepScore := s3.2.1 }

/-- Python `x is not None` on a modelled value. -/
def isNotNull : JsonVal → Bool
  | .null => false
  | _ => true

/-- The entries_with_data count (lines 242-245). -/
def hasWellnessData (en : WellnessDayEntry) : Bool :=
  en.hrv.isSome || isNotNull en.rhr || isNotNull en.sleepSeconds

structure WBatchResult where
  success : Bool
  wellness_data : Option (List WellnessDayEntry)
  count : Option Nat
  entries_with_data : Option Nat
  error : Option (String × String)

def sync_wellness_by_date_range (init : Except GExn (Option Unit)) (orc : WOracle)
    (s e : Nat) : WBatchResult :=
  match init with
  | .error g => { success := false, wellness_data := none, count := none,
                  entries_with_data := none, error := some (classify g) }
  | .ok none => { success := false, wellness_data := none, count := none,
                  entries_with_data := none, error := some ("AUTH_FAILED", authFailedMsg) }
  | .ok (some _) =>
    let wd := (dateRange s e).map (buildEntry orc)
    { success := true, wellness_data := some wd, count := some wd.length,
      entries_with_data := some (wd.filter hasWellnessData).length, error := none }

/-
get_activity_fit_stream record extraction (raw_data.py lines 47-61).
The fitparse decoding itself is the black-box upstream decoder; the loop
over decoded record messages and their data fields is embedded.  A decoded
data field is a (name, value) pair; a datetime value is FitVal.dt carrying
its isoformat rendering.
-/

inductive FitVal where
  | null : FitVal
  | int (i : Int) : FitVal
  | num (q : Rat) : FitVal
  | str (s : String) : FitVal
  | dt (iso : String) : FitVal
deriving DecidableEq

/-- The five metrics of interest at raw_data.py line 52. -/
def trackedFields : List String := ["timestamp", "heart_rate", "cadence", "speed", "distance"]

/-- Lines 55-58: a timestamp whose value exposes isoformat is normalized
to its ISO-8601 string; every other value passes through unchanged. -/
def normField (n : String) (v : FitVal) : FitVal :=
  if n = "timestamp" then
    match v with
    | .dt s => .str s
    | w => w
  else v

/-- Python dict assignment point[k] = v: replace in place when the key
exists, append otherwise. -/
def dictInsert (d : List (String × FitVal)) (k : String) (v : FitVal) :
    List (String × FitVal) :=
  if d.any (fun p => p.1 = k) then
    d.map (fun p => if p.1 = k then (k, v) else p)
  else d ++ [(k, v)]

/-- The inner loop over one record's data fields (lines 50-58), building
the point dict. -/
def buildPoint (r : List (String × FitVal)) : List (String × FitVal) :=
  r.foldl (fun point p =>
    if p.1 ∈ trackedFields then dictInsert point p.1 (normField p.1 p.2) else point) []

/-- The outer loop over record messages (lines 48-61): `if point:` keeps
only non-empty points, in stream order. -/
def decodeRecords (msgs : List (List (String × FitVal))) : List (List (String × FitVal)) :=
  msgs.foldl (fun recs r =>
    let point := buildPoint r
    if !point.isEmpty then recs ++ [point] else recs) []

/-
The __main__ blocks of both scripts (sync-garmin-mcp.py lines 26-33 and
260-275; sync-garmin-wellness-mcp.py lines 27-34 and 282-297).  Printed
JSON documents are modelled as Doc values; logging is configured with
stream=sys.stderr (line 20 resp. 21), so diagnostic text never reaches
stdout and only print() calls contribute documents.
-/

inductive Doc where
  | actRes (r : ActBatchResult) : Doc
  | wellnessRes (r : WBatchResult) : Doc
  | errDoc (kind msg : String) : Doc

/-- The success field of a printed document; the literal error documents
are printed with success False. -/
def Doc.resSuccess : Doc → Bool
  | .actRes r => r.success
  | .wellnessRes r => r.success
  | .errDoc _ _ => false

structure ProcOutcome where
  exitCode : Nat
  stdoutDocs : List Doc
  stderrDocs : List Doc

/-- The import-time guard document; note the script prints it with
file=sys.stderr. -/
def mcpNotFoundDoc : Doc := .errDoc "MCP_SOURCE_NOT_FOUND" "MCP source directory not found"

def invalidArgsDoc (usage : String) : Doc := .errDoc "INVALID_ARGS" usage

/-- The process-level control flow shared by both scripts: the MCP-source
guard (exit 1, JSON on stderr), the argv-count guard (exit 1, JSON on
stdout), then one run whose result is printed to stdout with exit
0 iff result['success']. -/
def scriptMain (mcpSrcExists : Bool) (argv : List String) (usage : String)
    (run : String → String → Doc) : ProcOutcome :=
  if mcpSrcExists = false then
    { exitCode := 1, stdoutDocs := [], stderrDocs := [mcpNotFoundDoc] }
  else if argv.length ≠ 3 then
    { exitCode := 1, stdoutDocs := [invalidArgsDoc usage], stderrDocs := [] }
  else
    let result := run (argv.getD 1 "") (argv.getD 2 "")
    { exitCode := if result.resSuccess then 0 else 1,
      stdoutDocs := [result], stderrDocs := [] }

/-
Helper lemmas about extract_duration.
-/

/-- A value that yields no duration in a scalar position: it is not a
strictly positive number. -/
def noScalarDur (v : JsonVal) : Prop := ∀ q : Rat, v = .num q → q ≤ 0

/-- A value that yields no duration in a number-or-object position:
not a strictly positive number, and an object shape has no strictly
positive totalSeconds. -/
def noDurField (v : JsonVal) : Prop :=
  noScalarDur v ∧ ∀ g, v = .obj g → noScalarDur (pyGet g "totalSeconds")

theorem durScalar_eq_none {v : JsonVal} (h : noScalarDur v) (src : String) :
    durScalar v src = none := by
  cases v with
  | num q => simp [durScalar, not_lt.mpr (h q rfl)]
  | null => rfl
  | str s => rfl
  | arr l => rfl
  | obj g => rfl

theorem durFromField_eq_none {v : JsonVal} (h : noDurField v) (s t : String) :
    durFromField v s t = none := by
  obtain ⟨hs, ho⟩ := h
  cases v with
  | num q => simp [durFromField, not_lt.mpr (hs q rfl)]
  | obj g =>
    have hts := ho g rfl
    simp only [durFromField]
    cases hv : pyGet g "totalSeconds" with
    | num q =>
      have hq := hts q hv
      by_cases h0 : q = 0
      · simp [hv, pyTruthy, h0]
      · simp [hv, pyTruthy, h0, not_lt.mpr hq]
    | null => simp [hv, pyTruthy]
    | str s' =>
      by_cases h0 : s'.isEmpty <;> simp [hv, pyTruthy, h0]
    | arr l =>
      by_cases h0 : l.isEmpty <;> simp [hv, pyTruthy, h0]
    | obj g' =>
      by_cases h0 : g'.isEmpty <;> simp [hv, pyTruthy, h0]
  | null => rfl
  | str s' => rfl
  | arr l => rfl

/-- Totality of extract_duration on a dict activity when details is
None, a dict, or falsy: every branch returns Except.ok. -/
theorem extract_duration_ok (af : List (String × JsonVal)) (d : JsonVal)
    (hd : d = .null ∨ (∃ g, d = .obj g) ∨ pyTruthy d = false) :
    ∃ r, extract_duration (.obj af) d = .ok r := by
  cases hp : durPriority123 af with
  | some r => exact ⟨r, by simp [extract_duration, hp]⟩
  | none =>
    rcases hd with rfl | ⟨g, rfl⟩ | hf
    · exact ⟨(0, "none"), by simp [extract_duration, hp, pyTruthy]⟩
    · by_cases ht : pyTruthy (.obj g)
      · exact ⟨(durDetails g).getD (0, "none"), by simp [extract_duration, hp, ht]⟩
      · exact ⟨(0, "none"), by simp [extract_duration, hp, ht]⟩
    · exact ⟨(0, "none"), by simp [extract_duration, hp, hf]⟩

theorem noScalarDur_null : noScalarDur .null := fun _ h => by cases h

theorem noScalarDur_str (s : String) : noScalarDur (.str s) := fun _ h => by cases h

theorem noScalarDur_arr (l : List JsonVal) : noScalarDur (.arr l) := fun _ h => by cases h

theorem noScalarDur_obj (g : List (String × JsonVal)) : noScalarDur (.obj g) :=
  fun _ h => by cases h

theorem noScalarDur_nonpos {q : Rat} (h : q ≤ 0) : noScalarDur (.num q) :=
  fun p hp => by cases hp; exact h

theorem durPriority123_eq_none {af : List (String × JsonVal)}
    (h1 : noDurField (pyGet af "duration"))
    (h2 : noScalarDur (pyGet af "elapsedDuration"))
    (h3 : noScalarDur (pyGet af "elapsedDurationInSeconds")) :
    durPriority123 af = none := by
  simp [durPriority123, durFromField_eq_none h1, durScalar_eq_none h2, durScalar_eq_none h3]

theorem durDetails_eq_none {g : List (String × JsonVal)}
    (h1 : noDurField (pyGet g "duration"))
    (h2 : noScalarDur (pyGet g "elapsedDuration"))
    (h3 : noScalarDur (pyGet g "elapsedDurationInSeconds"))
    (hsum : ∀ sf, pyGet g "summaryDTO" = .obj sf →
      noScalarDur (pyGet sf "elapsedDuration") ∧ noScalarDur (pyGet sf "duration")) :
    durDetails g = none := by
  simp only [durDetails, durFromField_eq_none h1, durScalar_eq_none h2, durScalar_eq_none h3]
  cases hs : pyGet g "summaryDTO" with
  | obj sf =>
    obtain ⟨ha, hb⟩ := hsum sf hs
    by_cases ht : pyTruthy (.obj sf) <;>
      simp [durScalar_eq_none ha, durScalar_eq_none hb, ht]
  | null => rfl
  | num q => rfl
  | str s => rfl
  | arr l => rfl

/-- Claim C3: for every activity payload whose duration field holds the
number 0 and whose elapsedDuration field holds a number strictly greater
than zero, the resolver treats the zero as absent and returns the
elapsedDuration value (as int) with source label "elapsedDuration",
whatever the details argument. -/
theorem duration_zero_cascades_to_elapsed
    (af : List (String × JsonVal)) (d : JsonVal) (q : Rat)
    (h1 : af.lookup "duration" = some (.num 0))
    (h2 : af.lookup "elapsedDuration" = some (.num q))
    (hq : 0 < q) :
    extract_duration (.obj af) d = .ok (pyInt q, "elapsedDuration") := by
  have hg1 : pyGet af "duration" = .num 0 := by simp [pyGet, h1]
  have hg2 : pyGet af "elapsedDuration" = .num q := by simp [pyGet, h2]
  simp [extract_duration, durPriority123, durFromField, durScalar, hg1, hg2, hq]

theorem duration_zero_cascades_to_elapsed_witness :
    extract_duration (.obj [("duration", .num 0), ("elapsedDuration", .num 300)]) .null
      = .ok (300, "elapsedDuration") := by
  have h := duration_zero_cascades_to_elapsed
    [("duration", .num 0), ("elapsedDuration", .num 300)] .null 300 rfl rfl (by norm_num)
  exact h.trans rfl

/-- Claim C8: a duration field holding a mapping descends one level to
totalSeconds: given {duration: {totalSeconds: 45}} the resolver returns
(45, "duration.totalSeconds"); an inner totalSeconds that is absent,
non-numeric, zero or negative makes the candidate absent and the cascade
continues to the next-priority field. -/
theorem duration_object_descends (ts : JsonVal) (q : Rat)
    (hts : noScalarDur ts) (hq : 0 < q) :
    extract_duration (.obj [("duration", .obj [("totalSeconds", ts)]),
        ("elapsedDuration", .num q)]) .null = .ok (pyInt q, "elapsedDuration")
    ∧ extract_duration (.obj [("duration", .obj []), ("elapsedDuration", .num q)]) .null
        = .ok (pyInt q, "elapsedDuration")
    ∧ extract_duration (.obj [("duration", .obj [("totalSeconds", .num 45)])]) .null
        = .ok (45, "duration.totalSeconds") := by
  refine ⟨?_, ?_, rfl⟩
  · have hf : durFromField (.obj [("totalSeconds", ts)]) "duration" "duration.totalSeconds"
        = none := by
      refine durFromField_eq_none ⟨noScalarDur_obj _, fun g hg => ?_⟩ _ _
      cases hg
      exact hts
    have hg1 : pyGet [("duration", .obj [("totalSeconds", ts)]), ("elapsedDuration", .num q)]
        "duration" = .obj [("totalSeconds", ts)] := rfl
    have hg2 : pyGet [("duration", .obj [("totalSeconds", ts)]), ("elapsedDuration", .num q)]
        "elapsedDuration" = .num q := rfl
    simp [extract_duration, durPriority123, hg1, hg2, hf, durScalar, hq]
  · have hg1 : pyGet [("duration", .obj []), ("elapsedDuration", .num q)] "duration"
        = .obj [] := rfl
    have hg2 : pyGet [("duration", .obj []), ("elapsedDuration", .num q)] "elapsedDuration"
        = .num q := rfl
    have hf0 : durFromField (.obj []) "duration" "duration.totalSeconds" = none := rfl
    simp [extract_duration, durPriority123, hg1, hg2, hf0, durScalar, hq]

theorem duration_object_descends_witness :
    extract_duration (.obj [("duration", .obj [("totalSeconds", .str "n/a")]),
        ("elapsedDuration", .num 300)]) .null = .ok (300, "elapsedDuration") := by
  have h := duration_object_descends (.str "n/a") 300 (noScalarDur_str _) (by norm_num)
  exact h.1.trans rfl

/-- pyInt truncates a rational strictly between 0 and 1 to 0. -/
theorem pyInt_trunc_zero {q : Rat} (h0 : 0 < q) (h1 : q < 1) : pyInt q = 0 := by
  have hn : 0 < q.num := Rat.num_pos.mpr h0
  have hd : q.num < (q.den : Int) := Rat.lt_one_iff_num_lt_denom.mp h1
  unfold pyInt
  obtain ⟨m, hm⟩ : ∃ m : Nat, q.num = (m : Int) :=
    ⟨q.num.toNat, (Int.toNat_of_nonneg hn.le).symm⟩
  rw [hm] at hd
  have hmd : m < q.den := by exact_mod_cast hd
  rw [hm]
  show Int.ofNat (m / q.den) = 0
  rw [Nat.div_eq_of_lt hmd]
  rfl

/-- Claim C10: an accepted candidate is returned as int(value), i.e.
truncated; an accepted duration strictly between 0 and 1 yields value 0
paired with the source label "duration", which differs from "none" - so
a returned 0 does not imply source "none". -/
theorem duration_truncation (q : Rat) (h0 : 0 < q) (h1 : q < 1) :
    extract_duration (.obj [("duration", .num q)]) .null = .ok (pyInt q, "duration")
    ∧ pyInt q = 0 ∧ "duration" ≠ "none" := by
  refine ⟨?_, pyInt_trunc_zero h0 h1, by decide⟩
  have hg : pyGet [("duration", .num q)] "duration" = .num q := rfl
  simp [extract_duration, durPriority123, durFromField, hg, h0]

theorem duration_truncation_witness :
    extract_duration (.obj [("duration", .num ratHalf)]) .null = .ok (0, "duration") := by
  have h := duration_truncation ratHalf (by decide) (by decide)
  exact h.1.trans (by rw [h.2.1])

/-- Claim C4 counterexample: extract_duration is not total on all
payload shapes - a non-mapping activity raises AttributeError at
activity.get, and so does a truthy non-mapping details. -/
theorem extract_duration_raises_on_nonmapping :
    extract_duration (.num 5) .null = .error .attrErr
    ∧ extract_duration (.obj []) (.arr [.num 1]) = .error .attrErr :=
  ⟨rfl, rfl⟩

/-- Claim C4 (amended): on the declared signature - a mapping activity
payload and a details payload that is None or a mapping - extract_duration
raises no exception, treats malformed candidate values (wrong type,
missing key, non-positive number, object without positive totalSeconds)
as absent, and returns (0, "none") when no candidate is accepted. -/
theorem extract_duration_total_on_mappings :
    (∀ af d, d = JsonVal.null ∨ (∃ g, d = JsonVal.obj g) →
      ∃ r, extract_duration (.obj af) d = .ok r)
    ∧ (∀ af df,
        noDurField (pyGet af "duration") →
        noScalarDur (pyGet af "elapsedDuration") →
        noScalarDur (pyGet af "elapsedDurationInSeconds") →
        (df = JsonVal.null ∨ ∃ g, df = JsonVal.obj g ∧
          noDurField (pyGet g "duration") ∧
          noScalarDur (pyGet g "elapsedDuration") ∧
          noScalarDur (pyGet g "elapsedDurationInSeconds") ∧
          (∀ sf, pyGet g "summaryDTO" = .obj sf →
            noScalarDur (pyGet sf "elapsedDuration") ∧ noScalarDur (pyGet sf "duration"))) →
        extract_duration (.obj af) df = .ok (0, "none")) := by
  constructor
  · intro af d hd
    refine extract_duration_ok af d ?_
    rcases hd with rfl | ⟨g, rfl⟩
    · exact Or.inl rfl
    · exact Or.inr (Or.inl ⟨g, rfl⟩)
  · intro af df h1 h2 h3 hdf
    have hp : durPriority123 af = none := durPriority123_eq_none h1 h2 h3
    rcases hdf with rfl | ⟨g, rfl, g1, g2, g3, g4⟩
    · simp [extract_duration, hp, pyTruthy]
    · have hdd : durDetails g = none := durDetails_eq_none g1 g2 g3 g4
      by_cases ht : pyTruthy (.obj g) <;> simp [extract_duration, hp, ht, hdd]

theorem extract_duration_total_witness :
    extract_duration (.obj [("duration", .str "x")]) .null = .ok (0, "none") := by
  refine extract_duration_total_on_mappings.2 [("duration", .str "x")] .null
    ⟨?_, ?_⟩ ?_ ?_ (Or.inl rfl)
  · exact noScalarDur_str "x"
  · intro g hg
    cases hg
  · exact noScalarDur_null
  · exact noScalarDur_null

/-- Claim C1: a batch-level terminal failure - an authentication
rejection or rate-limit or classified/unclassified API fault escaping to
the outer handlers, or a falsy client from init - makes both sync
drivers return success=false with a structured (kind, message) error and
no activities/wellness_data list attached: the failed batch carries no
partial per-item results. -/
theorem batch_failure_all_or_nothing (g : GExn) (ga : Except GExn (List JsonVal))
    (det : JsonVal → Except Unit JsonVal) (orc : WOracle) (s e : Nat) :
    ((sync_activities_by_date_range (.error g) ga det).success = false
      ∧ (sync_activities_by_date_range (.error g) ga det).error = some (classify g)
      ∧ (sync_activities_by_date_range (.error g) ga det).activities = none)
    ∧ ((sync_activities_by_date_range (.ok none) ga det).success = false
      ∧ (sync_activities_by_date_range (.ok none) ga det).error
          = some ("AUTH_FAILED", authFailedMsg)
      ∧ (sync_activities_by_date_range (.ok none) ga det).activities = none)
    ∧ ((sync_activities_by_date_range (.ok (some ())) (.error g) det).success = false
      ∧ (sync_activities_by_date_range (.ok (some ())) (.error g) det).error
          = some (classify g)
      ∧ (sync_activities_by_date_range (.ok (some ())) (.error g) det).activities = none)
    ∧ ((sync_wellness_by_date_range (.error g) orc s e).success = false
      ∧ (sync_wellness_by_date_range (.error g) orc s e).error = some (classify g)
      ∧ (sync_wellness_by_date_range (.error g) orc s e).wellness_data = none)
    ∧ ((sync_wellness_by_date_range (.ok none) orc s e).success = false
      ∧ (sync_wellness_by_date_range (.ok none) orc s e).error
          = some ("AUTH_FAILED", authFailedMsg)
      ∧ (sync_wellness_by_date_range (.ok none) orc s e).wellness_data = none) :=
  ⟨⟨rfl, rfl, rfl⟩, ⟨rfl, rfl, rfl⟩, ⟨rfl, rfl, rfl⟩, ⟨rfl, rfl, rfl⟩, ⟨rfl, rfl, rfl⟩⟩

/-- Claim C9 counterexample: the wellness HRV extraction accepts a
negative candidate - for hrvSummary.lastNightAvg = -5 the entry stores
hrv = -5.0, a value that is not strictly positive. -/
theorem hrv_negative_accepted :
    hrvSection (.ok (.obj [("hrvSummary", .obj [("lastNightAvg", .num (-5))])])) = some (-5)
    ∧ ¬ (0:Rat) < -5 := by
  refine ⟨rfl, by norm_num⟩

/-- Claim C9 (amended): HRV/RHR candidate acceptance in the wellness
driver is by Python truthiness and is-None checks, not strict
positivity: a zero candidate in a non-final or-chain position is falsy
and cascades to the next candidate, but any nonzero numeric candidate -
negative values included - is accepted, a zero arising as the final
candidate of an or-chain is accepted as 0.0, and a bare numeric
get_rhr_day payload is accepted whatever its sign. -/
theorem hrv_rhr_truthiness (q : Rat) (hq : q ≠ 0) :
    hrvSection (.ok (.obj [("hrvSummary", .obj [("lastNightAvg", .num q)])])) = some q
    ∧ hrvSection (.ok (.obj [("hrvSummary", .obj [("lastNightAvg", .num 0),
        ("avgOvernightHrv", .num 37)])])) = some 37
    ∧ hrvSection (.ok (.obj [("hrvSummary", .obj [("avgOvernightHrv", .num 0)])])) = some 0
    ∧ rhrMethod1 (.ok (.obj [("restingHeartRate", .num q)])) = .num q
    ∧ rhrMethod1 (.ok (.obj [("restingHeartRate", .num 0), ("rhr", .num 55)])) = .num 55
    ∧ rhrMethod1 (.ok (.num q)) = .num q := by
  have hb : (q != 0) = true := by simpa using hq
  refine ⟨?_, rfl, rfl, ?_, rfl, rfl⟩
  · simp [hrvSection, pyOr, pyTruthy, pyGet, pyFloat, hb]
  · simp [rhrMethod1, pyOr, pyTruthy, pyGet, pyFloat, hb]

theorem hrv_rhr_truthiness_witness :
    hrvSection (.ok (.obj [("hrvSummary", .obj [("lastNightAvg", .num (-5))])])) = some (-5)
    ∧ rhrMethod1 (.ok (.obj [("restingHeartRate", .num (-5))])) = .num (-5) := by
  have h := hrv_rhr_truthiness (-5) (by norm_num)
  exact ⟨h.1, h.2.2.2.1⟩

/-- Claim C5 counterexample: on the MCP_SOURCE_NOT_FOUND failure path
the error JSON is printed to stderr (print(..., file=sys.stderr)) and
stdout carries no JSON document at all, not exactly one. -/
theorem mcp_not_found_stdout_empty :
    (scriptMain false ["prog", "2024-01-01", "2024-01-03"] "usage"
      (fun _ _ => Doc.errDoc "X" "Y")).stdoutDocs = []
    ∧ (scriptMain false ["prog", "2024-01-01", "2024-01-03"] "usage"
      (fun _ _ => Doc.errDoc "X" "Y")).stderrDocs = [mcpNotFoundDoc] :=
  ⟨rfl, rfl⟩

/-- Claim C5 (amended): the process exit code is 0 iff the emitted
result's success field is true on every path, diagnostic text is routed
to the separate stderr channel, and stdout carries exactly one JSON
document on every path except MCP_SOURCE_NOT_FOUND, where the error
document goes to stderr (with success false and exit code 1) and stdout
carries none. -/
theorem exit_code_single_doc (argv : List String) (usage : String)
    (run : String → String → Doc) :
    ((scriptMain true argv usage run).stdoutDocs.length = 1
      ∧ (scriptMain true argv usage run).stderrDocs = []
      ∧ ∀ d, d ∈ (scriptMain true argv usage run).stdoutDocs →
          ((scriptMain true argv usage run).exitCode = 0 ↔ d.resSuccess = true))
    ∧ ((scriptMain false argv usage run).stdoutDocs = []
      ∧ (scriptMain false argv usage run).exitCode = 1
      ∧ (scriptMain false argv usage run).stderrDocs = [mcpNotFoundDoc]
      ∧ Doc.resSuccess mcpNotFoundDoc = false) := by
  constructor
  · by_cases h3 : argv.length = 3
    · have e1 : scriptMain true argv usage run
          = { exitCode := if (run (argv.getD 1 "") (argv.getD 2 "")).resSuccess then 0 else 1,
              stdoutDocs := [run (argv.getD 1 "") (argv.getD 2 "")], stderrDocs := [] } := by
        unfold scriptMain
        rw [if_neg (by simp), if_neg (by simp [h3])]
      rw [e1]
      refine ⟨rfl, rfl, ?_⟩
      intro d hd
      simp only [List.mem_singleton] at hd
      subst hd
      cases hs : (run (argv.getD 1 "") (argv.getD 2 "")).resSuccess <;> simp [hs]
    · have e1 : scriptMain true argv usage run
          = { exitCode := 1, stdoutDocs := [invalidArgsDoc usage], stderrDocs := [] } := by
        unfold scriptMain
        rw [if_neg (by simp), if_pos h3]
      rw [e1]
      refine ⟨rfl, rfl, ?_⟩
      intro d hd
      simp only [List.mem_singleton] at hd
      subst hd
      simp [Doc.resSuccess, invalidArgsDoc]
  · exact ⟨rfl, rfl, rfl, rfl⟩

theorem exit_code_single_doc_witness :
    (scriptMain true ["p", "a", "b"] "u" (fun _ _ => Doc.errDoc "K" "M")).exitCode = 0
      ↔ (Doc.errDoc "K" "M").resSuccess = true := by
  have h := exit_code_single_doc ["p", "a", "b"] "u" (fun _ _ => Doc.errDoc "K" "M")
  exact h.1.2.2 (Doc.errDoc "K" "M") (by simp [scriptMain])

theorem dateRange_eq_range' : ∀ (n s e : Nat), e + 1 - s = n → dateRange s e = List.range' s n := by
  intro n
  induction n with
  | zero =>
    intro s e h
    rw [dateRange, if_neg (by omega)]
    rfl
  | succ k ih =>
    intro s e h
    rw [dateRange, if_pos (by omega), List.range'_succ]
    exact congrArg (s :: ·) (ih (s + 1) e (by omega))

theorem buildEntry_date (orc : WOracle) (d : Nat) : (buildEntry orc d).date = d := rfl

/-- Claim C2: for every inclusive range start <= end the successful
wellness batch contains exactly one WellnessDayEntry per calendar day -
count equals the day count, dates are the consecutive ascending range
with no gaps and no duplicates - and a day whose every fetch raises
still contributes exactly one entry for that date with all non-date
fields None. -/
theorem wellness_one_entry_per_day (orc : WOracle) (s e : Nat) (h : s ≤ e) :
    ∃ l, (sync_wellness_by_date_range (.ok (some ())) orc s e).wellness_data = some l
      ∧ l.map (fun en => en.date) = List.range' s (e + 1 - s)
      ∧ l.length = e + 1 - s
      ∧ (l.map (fun en => en.date)).Pairwise (· < ·)
      ∧ ∀ d, d ∈ dateRange s e →
          orc.hrv d = .error () → orc.rhrDay d = .error () →
          orc.heartRates d = .error () → orc.sleep d = .error () →
          ({ date := d, hrv := none, rhr := .null, sleepSeconds := .null,
             sleepScore := .null } : WellnessDayEntry) ∈ l := by
  have hmap : ((dateRange s e).map (buildEntry orc)).map (fun en => en.date) = dateRange s e := by
    rw [List.map_map]
    have : ((fun en => WellnessDayEntry.date en) ∘ buildEntry orc) = id := by
      funext d
      exact buildEntry_date orc d
    rw [this, List.map_id]
  refine ⟨(dateRange s e).map (buildEntry orc), rfl, ?_, ?_, ?_, ?_⟩
  · rw [hmap, dateRange_eq_range' _ s e rfl]
  · rw [List.length_map, dateRange_eq_range' _ s e rfl, List.length_range']
  · rw [hmap, dateRange_eq_range' _ s e rfl]
    exact List.pairwise_lt_range' s (e + 1 - s)
  · intro d hd h1 h2 h3 h4
    refine List.mem_map.mpr ⟨d, hd, ?_⟩
    unfold buildEntry
    rw [h1, h2, h3, h4]
    rfl

/-- An oracle whose every call raises. -/
def errOracle : WOracle :=
  ⟨fun _ => .error (), fun _ => .error (), fun _ => .error (), fun _ => .error ()⟩

theorem wellness_one_entry_per_day_witness :
    ∃ l, (sync_wellness_by_date_range (.ok (some ())) errOracle 0 2).wellness_data = some l
      ∧ l.length = 3
      ∧ ({ date := 1, hrv := none, rhr := .null, sleepSeconds := .null,
           sleepScore := .null } : WellnessDayEntry) ∈ l := by
  obtain ⟨l, hl, _, hlen, _, hdeg⟩ := wellness_one_entry_per_day errOracle 0 2 (by omega)
  refine ⟨l, hl, hlen, hdeg 1 ?_ rfl rfl rfl rfl⟩
  rw [dateRange_eq_range' 3 0 2 rfl]
  decide

/-- Whether an upstream list item has a (truthy) activityId; only dict
items can. -/
def hasId : JsonVal → Bool
  | .obj fields => pyTruthy (pyGet fields "activityId")
  | _ => false

theorem processActivity_eq_none {a : JsonVal} (h : hasId a = false)
    (det : JsonVal → Except Unit JsonVal) : processActivity det a = none := by
  cases a with
  | obj fields =>
    simp only [hasId] at h
    simp [processActivity, h]
  | null => rfl
  | num q => rfl
  | str s => rfl
  | arr l => rfl

theorem processActivity_isSome (det : JsonVal → Except Unit JsonVal)
    (hdet : ∀ x, det x = .error () ∨ det x = .ok .null ∨ ∃ g, det x = .ok (.obj g)) :
    ∀ a, (processActivity det a).isSome = hasId a := by
  intro a
  cases a with
  | obj fields =>
    simp only [processActivity, hasId]
    by_cases hid : pyTruthy (pyGet fields "activityId") = true
    · rw [if_pos hid, hid]
      have hd : detailValue det (pyGet fields "activityId") = JsonVal.null
          ∨ ∃ g, detailValue det (pyGet fields "activityId") = JsonVal.obj g := by
        rcases hdet (pyGet fields "activityId") with h | h | ⟨g, h⟩
        · exact Or.inl (by simp [detailValue, h])
        · exact Or.inl (by simp [detailValue, h])
        · exact Or.inr ⟨g, by simp [detailValue, h]⟩
      obtain ⟨⟨v, src⟩, hr⟩ := extract_duration_ok fields _
        (by rcases hd with h | ⟨g, h⟩
            · exact Or.inl h
            · exact Or.inr (Or.inl ⟨g, h⟩))
      rw [hr]
      rfl
    · rw [if_neg hid]
      simp only [Bool.not_eq_true] at hid
      rw [hid]
      rfl
  | null => rfl
  | num q => rfl
  | str s => rfl
  | arr l => rfl

theorem length_filterMap_eq_length_filter {α β : Type} (f : α → Option β) (p : α → Bool)
    (h : ∀ a, (f a).isSome = p a) :
    ∀ l : List α, (l.filterMap f).length = (l.filter p).length := by
  intro l
  induction l with
  | nil => rfl
  | cons a t ih =>
    have ha := h a
    cases hfa : f a <;> rw [hfa] at ha <;>
      simp [List.filterMap_cons, List.filter_cons, hfa, ← ha, ih]

/-- Claim C6: an upstream item lacking a (truthy) identifier is excluded
from the activity batch entirely - it yields no record and does not
enter count - while an item with an identifier whose detail fetch raises
is still included, with details None and its duration resolved from the
list-level fields alone. -/
theorem activity_id_filter (det : JsonVal → Except Unit JsonVal) (items : List JsonVal) :
    ((∀ x, det x = .error () ∨ det x = .ok .null ∨ ∃ g, det x = .ok (.obj g)) →
      (sync_activities_by_date_range (.ok (some ())) (.ok items) det).count
        = some ((items.filter hasId).length))
    ∧ (sync_activities_by_date_range (.ok (some ())) (.ok items) det).activities
        = some (items.filterMap (processActivity det))
    ∧ (∀ a, hasId a = false → processActivity det a = none)
    ∧ (∀ fields, hasId (.obj fields) = true →
        det (pyGet fields "activityId") = .error () →
        ∃ rec v src, processActivity det (.obj fields) = some rec
          ∧ rec.details = JsonVal.null
          ∧ extract_duration (.obj fields) .null = .ok (v, src)
          ∧ rec.durationInSeconds = v) := by
  refine ⟨?_, rfl, fun a h => processActivity_eq_none h det, ?_⟩
  · intro hdet
    show some ((items.filterMap (processActivity det)).length) = _
    rw [length_filterMap_eq_length_filter _ hasId (processActivity_isSome det hdet) items]
  · intro fields hid herr
    have hdtl : detailValue det (pyGet fields "activityId") = JsonVal.null := by
      simp [detailValue, herr]
    obtain ⟨⟨v, src⟩, hr⟩ := extract_duration_ok fields .null (Or.inl rfl)
    refine ⟨mkActivityRecord fields .null v, v, src, ?_, rfl, hr, rfl⟩
    simp only [hasId] at hid
    simp only [processActivity]
    rw [if_pos hid, hdtl, hr]

/-- A detail oracle whose every call raises. -/
def errDetail : JsonVal → Except Unit JsonVal := fun _ => .error ()

theorem activity_id_filter_witness :
    (sync_activities_by_date_range (.ok (some ())) (.ok [.num 3]) errDetail).count = some 0
    ∧ processActivity errDetail (.str "x") = none
    ∧ ∃ rec v src, processActivity errDetail (.obj [("activityId", .num 7)]) = some rec
        ∧ rec.details = JsonVal.null
        ∧ extract_duration (.obj [("activityId", .num 7)]) .null = .ok (v, src)
        ∧ rec.durationInSeconds = v := by
  have h1 := (activity_id_filter errDetail [.num 3]).1 (fun _ => Or.inl rfl)
  have h2 := (activity_id_filter errDetail []).2.2.1 (.str "x") rfl
  have h3 := (activity_id_filter errDetail []).2.2.2 [("activityId", .num 7)] rfl rfl
  exact ⟨h1.trans rfl, h2, h3⟩

theorem dictInsert_of_not_mem {d : List (String × FitVal)} {k : String}
    (h : ∀ p ∈ d, p.1 ≠ k) (v : FitVal) : dictInsert d k v = d ++ [(k, v)] := by
  have hc : (d.any (fun p => p.1 = k)) = false := by
    rw [List.any_eq_false]
    intro p hp
    simpa using h p hp
  unfold dictInsert
  rw [hc]
  rfl

theorem mem_dictInsert {d : List (String × FitVal)} {k : String} {v : FitVal} {p : String × FitVal}
    (hp : p ∈ dictInsert d k v) : p ∈ d ∨ p = (k, v) := by
  unfold dictInsert at hp
  by_cases hc : (d.any (fun q => q.1 = k)) = true
  · rw [if_pos hc] at hp
    obtain ⟨q, hq, hpq⟩ := List.mem_map.mp hp
    by_cases hqk : q.1 = k
    · rw [if_pos hqk] at hpq
      exact Or.inr hpq.symm
    · rw [if_neg hqk] at hpq
      exact Or.inl (hpq ▸ hq)
  · rw [if_neg hc] at hp
    rcases List.mem_append.mp hp with hl | hr
    · exact Or.inl hl
    · exact Or.inr (by simpa using hr)

theorem buildPoint_go (r : List (String × FitVal)) :
    ∀ acc : List (String × FitVal),
      (r.map Prod.fst).Nodup →
      (∀ p ∈ acc, ∀ n ∈ r.map Prod.fst, p.1 ≠ n) →
      r.foldl (fun point p =>
          if p.1 ∈ trackedFields then dictInsert point p.1 (normField p.1 p.2) else point) acc
        = acc ++ r.filterMap (fun p =>
            if p.1 ∈ trackedFields then some (p.1, normField p.1 p.2) else none) := by
  induction r with
  | nil =>
    intro acc _ _
    simp
  | cons a t ih =>
    intro acc hnd hdisj
    have hnd' : (t.map Prod.fst).Nodup := (List.nodup_cons.mp (by simpa using hnd)).2
    have hhead : a.1 ∉ t.map Prod.fst := (List.nodup_cons.mp (by simpa using hnd)).1
    simp only [List.foldl_cons, List.filterMap_cons]
    by_cases ht : a.1 ∈ trackedFields
    · rw [if_pos ht, if_pos ht]
      have hins : dictInsert acc a.1 (normField a.1 a.2) = acc ++ [(a.1, normField a.1 a.2)] := by
        refine dictInsert_of_not_mem (fun p hp => ?_) _
        exact hdisj p hp a.1 (by simp)
      rw [hins, ih (acc ++ [(a.1, normField a.1 a.2)]) hnd' ?_]
      · simp
      · intro p hp n hn
        rcases List.mem_append.mp hp with hl | hr
        · exact hdisj p hl n (by simp [hn])
        · have : p = (a.1, normField a.1 a.2) := by simpa using hr
          rw [this]
          intro hcon
          exact hhead (hcon ▸ hn)
    · rw [if_neg ht, if_neg ht]
      exact ih acc hnd' (fun p hp n hn => hdisj p hp n (by simp [hn]))

theorem buildPoint_eq (r : List (String × FitVal)) (hnd : (r.map Prod.fst).Nodup) :
    buildPoint r = r.filterMap (fun p =>
      if p.1 ∈ trackedFields then some (p.1, normField p.1 p.2) else none) := by
  have h := buildPoint_go r [] hnd (by simp)
  simpa [buildPoint] using h

theorem buildPoint_keys (r : List (String × FitVal)) :
    ∀ p ∈ buildPoint r, p.1 ∈ trackedFields := by
  have hgo : ∀ acc : List (String × FitVal), (∀ p ∈ acc, p.1 ∈ trackedFields) →
      ∀ p ∈ r.foldl (fun point q =>
        if q.1 ∈ trackedFields then dictInsert point q.1 (normField q.1 q.2) else point) acc,
      p.1 ∈ trackedFields := by
    induction r with
    | nil =>
      intro acc hacc p hp
      exact hacc p hp
    | cons a t ih =>
      intro acc hacc p hp
      simp only [List.foldl_cons] at hp
      by_cases ht : a.1 ∈ trackedFields
      · rw [if_pos ht] at hp
        refine ih (dictInsert acc a.1 (normField a.1 a.2)) ?_ p hp
        intro q hq
        rcases mem_dictInsert hq with hq | hq
        · exact hacc q hq
        · rw [hq]
          exact ht
      · rw [if_neg ht] at hp
        exact ih acc hacc p hp
  exact hgo [] (by simp)

theorem buildPoint_untracked (r : List (String × FitVal))
    (h : ∀ p ∈ r, p.1 ∉ trackedFields) : buildPoint r = [] := by
  have hgo : ∀ acc : List (String × FitVal), r.foldl (fun point q =>
      if q.1 ∈ trackedFields then dictInsert point q.1 (normField q.1 q.2) else point) acc
      = acc := by
    induction r with
    | nil =>
      intro acc
      rfl
    | cons a t ih =>
      intro acc
      simp only [List.foldl_cons]
      rw [if_neg (h a (by simp))]
      exact ih (fun p hp => h p (by simp [hp])) acc
  exact hgo []

theorem decodeRecords_eq (msgs : List (List (String × FitVal))) :
    decodeRecords msgs = (msgs.map buildPoint).filter (fun p => !p.isEmpty) := by
  have hgo : ∀ acc, msgs.foldl (fun recs r =>
      let point := buildPoint r
      if !point.isEmpty then recs ++ [point] else recs) acc
      = acc ++ (msgs.map buildPoint).filter (fun p => !p.isEmpty) := by
    induction msgs with
    | nil =>
      intro acc
      simp
    | cons m t ih =>
      intro acc
      simp only [List.foldl_cons, List.map_cons, List.filter_cons]
      by_cases hm : (!(buildPoint m).isEmpty) = true
      · rw [if_pos hm, hm, ih]
        simp
      · rw [if_neg hm]
        simp only [Bool.not_eq_true] at hm
        rw [hm, ih]
        simp
  simpa [decodeRecords] using hgo []

/-- Claim C7: the record loop extracts only the five fields timestamp,
heart_rate, cadence, speed, distance; a record contributing zero
recognized fields is dropped entirely, while a record with at least one
recognized field is emitted with unrecognized or absent fields simply
not present - a present zero is kept as zero and an absent field is
never defaulted.  The emitted stream is the pointwise extraction of the
input records, filtered to the non-empty points. -/
theorem fit_record_field_extraction :
    (∀ msgs, decodeRecords msgs = (msgs.map buildPoint).filter (fun p => !p.isEmpty))
    ∧ (∀ r, (r.map Prod.fst).Nodup →
        buildPoint r = r.filterMap (fun p =>
          if p.1 ∈ trackedFields then some (p.1, normField p.1 p.2) else none))
    ∧ (∀ r, ∀ p ∈ buildPoint r, p.1 ∈ trackedFields)
    ∧ (∀ r, (∀ p ∈ r, p.1 ∉ trackedFields) → buildPoint r = [])
    ∧ buildPoint [("heart_rate", .int 50), ("power", .int 200)] = [("heart_rate", .int 50)]
    ∧ buildPoint [("cadence", .int 0)] = [("cadence", .int 0)]
    ∧ buildPoint [("timestamp", .dt "2024-01-01T00:00:00"), ("heart_rate", .int 50)]
        = [("timestamp", .str "2024-01-01T00:00:00"), ("heart_rate", .int 50)] := by
  refine ⟨decodeRecords_eq, buildPoint_eq, buildPoint_keys, buildPoint_untracked,
    ?_, ?_, ?_⟩ <;> decide

theorem fit_record_field_extraction_witness :
    buildPoint [("heart_rate", .int 47), ("left_right_balance", .int 120)]
      = [("heart_rate", .int 47)] := by
  have h := fit_record_field_extraction.2.1
    [("heart_rate", .int 47), ("left_right_balance", .int 120)] (by decide)
  exact h.trans (by decide)
